import Mathlib

/-!
Verification of the CRM Platform Python SDK request/session core
(`crm_sdk/client.py`, `crm_sdk/exceptions.py`, `crm_sdk/models.py`).

Shallow embedding conventions:
* JSON values are modelled by `JValue`; Python `None` is `JValue.jnull`.
* Times are integer epoch seconds; `timedelta(minutes=5)` is `300`.
* The HTTP transport is abstracted: each network call's outcome
  (timeout, connection error, or a response with status / decoded body /
  raw text) is an explicit input of type `CallOutcome`.  A `World` bundles
  the outcome used by the pre-flight token-refresh call and the outcome
  of the main call.
* Python exceptions are values: `PyExc.crm` carries an SDK `CRMError`
  (class tag plus the attributes set by the constructors in
  `exceptions.py`); raw Python/httpx exceptions that the SDK does not
  wrap (TypeError, KeyError, AttributeError, JSON decode errors, httpx
  transport errors escaping `_refresh_access_token`) get their own
  constructors.
* Python truthiness (`if self.api_key`, `details or ...`) is modelled
  explicitly by `jTruthy` / `strTruthy` / `pyOr`.
-/

/-- A JSON value, the result of `response.json()` and the shape of
request/response bodies. -/
inductive JValue where
  | jnull
  | jbool (b : Bool)
  | jnum (n : Int)
  | jstr (s : String)
  | jarr (xs : List JValue)
  | jobj (fields : List (String × JValue))

/-- Python truthiness of a JSON value (`None`, `False`, `0`, `""`, `[]`,
and the empty object are falsy). -/
def jTruthy : JValue → Bool
  | .jnull => false
  | .jbool b => b
  | .jnum n => n != 0
  | .jstr s => !s.isEmpty
  | .jarr xs => !xs.isEmpty
  | .jobj fs => !fs.isEmpty

/-- Python truthiness of an `Optional[str]` field (None and the empty
string are falsy). -/
def strTruthy : Option String → Bool
  | none => false
  | some s => !s.isEmpty

/-- Python `a or b` on JSON values. -/
def pyOr (a b : JValue) : JValue :=
  if jTruthy a then a else b

/-- `dict.get(k)` on an association list of fields. -/
def dLookup (fs : List (String × JValue)) (k : String) : Option JValue :=
  (fs.find? (fun p => p.1 == k)).map (fun p => p.2)

/-- `dict.get(k, default)` on an association list of fields. -/
def dGetJ (fs : List (String × JValue)) (k : String) (dflt : JValue) : JValue :=
  (dLookup fs k).getD dflt

/-- `d[k] = v` on an association-list dictionary: replace the binding of
`k` if present, else append it. -/
def dSet (fs : List (String × JValue)) (k : String) (v : JValue) : List (String × JValue) :=
  if (fs.find? (fun p => p.1 == k)).isSome then
    fs.map (fun p => if p.1 == k then (p.1, v) else p)
  else fs ++ [(k, v)]

/-- Python `obj[k] = v` on a JSON value: succeeds only when `obj` is a
dict; anything else raises TypeError, modelled as `none`. -/
def pySetItem (j : JValue) (k : String) (v : JValue) : Option JValue :=
  match j with
  | .jobj fs => some (.jobj (dSet fs k v))
  | _ => none

/-- `timedelta(seconds=x)`: accepts numbers (Python bools are ints);
anything else raises TypeError, modelled as `none`. -/
def asSeconds : JValue → Option Int
  | .jnum n => some n
  | .jbool b => some (if b then 1 else 0)
  | _ => none

/-- Python `str()` of a JSON value (used for `f"Bearer ..."`); scalar
cases follow Python, composite renderings are a good-faith repr. -/
def pyStr : JValue → String
  | .jnull => "None"
  | .jbool b => if b then "True" else "False"
  | .jnum n => toString n
  | .jstr s => s
  | .jarr _ => "[...]"
  | .jobj _ => "{...}"

/-- The credential/session state held by `CRMClient` (client.py lines
73-81): constructor-supplied api_key / tenant_id / auto_refresh /
timeout, and the mutable `_access_token`, `_refresh_token`,
`_token_expires_at` fields.  Token fields hold whatever JSON value the
server returned (`jnull` for Python None); the expiry is an epoch
second or None. -/
structure Session where
  api_key : Option String
  tenant_id : Option String
  auto_refresh : Bool
  timeout : Int
  access_token : JValue
  refresh_token : JValue
  token_expires_at : Option Int

/-- `CRMClient._should_refresh_token` (client.py lines 126-133): false
when auto_refresh is off or no (truthy) refresh token or no recorded
expiry; otherwise true iff `now >= expires_at - 5 minutes`. -/
def shouldRefreshToken (s : Session) (now : Int) : Bool :=
  if !s.auto_refresh || !jTruthy s.refresh_token then false
  else
    match s.token_expires_at with
    | none => false
    | some exp => now ≥ exp - 300

/-- `CRMClient._get_headers` (client.py lines 109-124). -/
def getHeaders (s : Session) : List (String × String) :=
  let h : List (String × String) :=
    [("Content-Type", "application/json"), ("Accept", "application/json")]
  let h :=
    if strTruthy s.api_key then h ++ [("X-API-Key", s.api_key.getD "")]
    else if jTruthy s.access_token then
      h ++ [("Authorization", "Bearer " ++ pyStr s.access_token)]
    else h
  if strTruthy s.tenant_id then h ++ [("X-Tenant-ID", s.tenant_id.getD "")] else h

/-- Lookup of a header by name in a header map. -/
def hdrGet (hs : List (String × String)) (k : String) : Option String :=
  (hs.find? (fun p => p.1 == k)).map (fun p => p.2)

/-- The class of a raised SDK exception (exceptions.py). -/
inductive ExcClass where
  | CRMError
  | AuthenticationError
  | AuthorizationError
  | NotFoundError
  | ValidationError
  | ConflictError
  | RateLimitError
  | ServerError
  | NetworkError
  | TimeoutError
  deriving DecidableEq, Repr

/-- An SDK exception value: the class tag plus the attributes the
constructors in exceptions.py set.  `retry_after` exists only on
RateLimitError (jnull elsewhere), `timeout` only on TimeoutError,
`original_error` only on NetworkError. -/
structure Exc where
  cls : ExcClass
  message : JValue
  status_code : Option Int
  error_code : JValue
  details : JValue
  retry_after : JValue
  timeout : Option Int
  original_error : Option String

/-- `CRMError.__init__` (exceptions.py lines 11-22): stores message,
status_code, error_code and `details or` the empty dict. -/
def mkExc (cls : ExcClass) (message : JValue) (status_code : Option Int)
    (error_code : JValue) (details : JValue) (retry_after : JValue)
    (timeout : Option Int) (original_error : Option String) : Exc :=
  ⟨cls, message, status_code, error_code, pyOr details (.jobj []),
   retry_after, timeout, original_error⟩

/-- `AuthenticationError.__init__` (exceptions.py lines 44-55). -/
def authenticationError (message error_code details : JValue) : Exc :=
  mkExc .AuthenticationError message (some 401)
    (pyOr error_code (.jstr "AUTHENTICATION_ERROR")) details .jnull none none

/-- `AuthorizationError.__init__` (exceptions.py lines 61-72). -/
def authorizationError (message error_code details : JValue) : Exc :=
  mkExc .AuthorizationError message (some 403)
    (pyOr error_code (.jstr "AUTHORIZATION_ERROR")) details .jnull none none

/-- `NotFoundError.__init__` (exceptions.py lines 78-96) as called by
`raise_for_status`: resource_type and resource_id default to None, so no
key is inserted into details. -/
def notFoundError (message details : JValue) : Exc :=
  mkExc .NotFoundError message (some 404) (.jstr "NOT_FOUND")
    (pyOr details (.jobj [])) .jnull none none

/-- `ValidationError.__init__` (exceptions.py lines 102-117): inserts a
truthy `errors` into details under "validation_errors"; the item
assignment raises TypeError (`none`) when details is a truthy non-dict. -/
def validationError (message errors details : JValue) : Option Exc :=
  let d := pyOr details (.jobj [])
  if jTruthy errors then
    match pySetItem d "validation_errors" errors with
    | none => none
    | some d2 =>
      some (mkExc .ValidationError message (some 400) (.jstr "VALIDATION_ERROR")
        d2 .jnull none none)
  else
    some (mkExc .ValidationError message (some 400) (.jstr "VALIDATION_ERROR")
      d .jnull none none)

/-- `ConflictError.__init__` (exceptions.py lines 123-134). -/
def conflictError (message error_code details : JValue) : Exc :=
  mkExc .ConflictError message (some 409) (pyOr error_code (.jstr "CONFLICT"))
    details .jnull none none

/-- `RateLimitError.__init__` (exceptions.py lines 140-156): inserts a
truthy `retry_after` into details (TypeError when details is a truthy
non-dict) and always stores it as the `retry_after` attribute. -/
def rateLimitError (message retry_after details : JValue) : Option Exc :=
  let d := pyOr details (.jobj [])
  if jTruthy retry_after then
    match pySetItem d "retry_after" retry_after with
    | none => none
    | some d2 =>
      some (mkExc .RateLimitError message (some 429) (.jstr "RATE_LIMIT_EXCEEDED")
        d2 retry_after none none)
  else
    some (mkExc .RateLimitError message (some 429) (.jstr "RATE_LIMIT_EXCEEDED")
      d retry_after none none)

/-- `ServerError.__init__` (exceptions.py lines 162-174). -/
def serverError (message : JValue) (status_code : Int) (error_code details : JValue) : Exc :=
  mkExc .ServerError message (some status_code)
    (pyOr error_code (.jstr "SERVER_ERROR")) details .jnull none none

/-- `NetworkError.__init__` (exceptions.py lines 180-196) as called by
`CRMClient.request`: details defaults to the empty dict and the (always
truthy) exception is recorded under "original_error". -/
def networkErrorExc (message : JValue) (d : String) : Exc :=
  mkExc .NetworkError message none (.jstr "NETWORK_ERROR")
    (.jobj [("original_error", .jstr d)]) .jnull none (some d)

/-- `TimeoutError.__init__` (exceptions.py lines 202-218) as called by
`CRMClient.request`: the configured timeout is recorded in details when
truthy and always stored as the `timeout` attribute. -/
def timeoutErrorExc (message : JValue) (t : Int) : Exc :=
  mkExc .TimeoutError message none (.jstr "TIMEOUT")
    (if t != 0 then .jobj [("timeout", .jnum t)] else .jobj []) .jnull (some t) none

/-- A raised Python exception: an SDK `CRMError` subclass, or a raw
Python/httpx exception the SDK does not wrap. -/
inductive PyExc where
  | crm (e : Exc)
  | typeError
  | keyError (k : String)
  | attributeError
  | jsonDecodeError
  | httpxTimeout (d : String)
  | httpxRequestError (d : String)
  | pydanticError

/-- `raise_for_status` (exceptions.py lines 221-275): extracts
error/message, code and details from the body and raises the exception
class selected by the status code.  A non-dict body makes `.get` raise
AttributeError. -/
def raise_for_status (status_code : Int) (response_data : JValue) : PyExc :=
  match response_data with
  | .jobj fs =>
    let error_message := dGetJ fs "error" (dGetJ fs "message" (.jstr "Unknown error"))
    let error_code := dGetJ fs "code" .jnull
    let details := dGetJ fs "details" (.jobj [])
    if status_code == 400 then
      match validationError error_message (dGetJ fs "errors" .jnull) details with
      | some e => .crm e
      | none => .typeError
    else if status_code == 401 then .crm (authenticationError error_message error_code details)
    else if status_code == 403 then .crm (authorizationError error_message error_code details)
    else if status_code == 404 then .crm (notFoundError error_message details)
    else if status_code == 409 then .crm (conflictError error_message error_code details)
    else if status_code == 429 then
      match rateLimitError error_message (dGetJ fs "retry_after" .jnull) details with
      | some e => .crm e
      | none => .typeError
    else if status_code ≥ 500 then .crm (serverError error_message status_code error_code details)
    else .crm (mkExc .CRMError error_message (some status_code) error_code details .jnull none none)
  | _ => .attributeError

/-- An HTTP response as seen by the client: status code, the result of
`response.json()` (`none` when decoding raises), and the raw text. -/
structure HResponse where
  status : Int
  body : Option JValue
  text : String

/-- The outcome of one transport call: `httpx.TimeoutException`,
another `httpx.RequestError`, or a response. -/
inductive CallOutcome where
  | timeout (d : String)
  | netError (d : String)
  | response (r : HResponse)

/-- The transport outcomes a dispatch can consume: the outcome of the
pre-flight refresh call (used only when a refresh is triggered) and the
outcome of the main call. -/
structure World where
  refreshOutcome : CallOutcome
  mainOutcome : CallOutcome

/-- `CRMClient._refresh_access_token` (client.py lines 135-150): raises
AuthenticationError without a truthy refresh token; lets raw httpx
errors of the POST escape; raises AuthenticationError on status other
than 200; otherwise decodes the body, assigns `access_token` from
`data["access_token"]` (line 149), then recomputes the expiry from
`data.get("expires_in", 3600)` (line 150) - a TypeError there leaves
the expiry unchanged although the access token was already assigned. -/
def refreshAccessToken (s : Session) (now : Int) (out : CallOutcome) :
    Option PyExc × Session :=
  if !jTruthy s.refresh_token then
    (some (.crm (authenticationError (.jstr "No refresh token available") .jnull .jnull)), s)
  else
    match out with
    | .timeout d => (some (.httpxTimeout d), s)
    | .netError d => (some (.httpxRequestError d), s)
    | .response r =>
      if r.status != 200 then
        (some (.crm (authenticationError (.jstr "Failed to refresh token") .jnull .jnull)), s)
      else
        match r.body with
        | none => (some .jsonDecodeError, s)
        | some data =>
          match data with
          | .jobj fs =>
            match dLookup fs "access_token" with
            | none => (some (.keyError "access_token"), s)
            | some tok =>
              let s1 := { s with access_token := tok }
              match asSeconds (dGetJ fs "expires_in" (.jnum 3600)) with
              | none => (some .typeError, s1)
              | some secs => (none, { s1 with token_expires_at := some (now + secs) })
          | _ => (some .typeError, s)

/-- `CRMClient.request` (client.py lines 152-202): refreshes first when
`_should_refresh_token()` holds, propagating any refresh failure
without attempting the main call; wraps transport failures of the main
call in TimeoutError / NetworkError; on status >= 400 decodes the error
body (synthesizing an "error" dict around the raw text when decoding
fails) and raises via `raise_for_status`; otherwise returns the
response.  The method and path do not influence the modelled outcome. -/
def request (s : Session) (now : Int) (method path : String) (w : World) :
    Except PyExc HResponse × Session :=
  let pre :=
    if shouldRefreshToken s now then refreshAccessToken s now w.refreshOutcome
    else (none, s)
  match pre with
  | (some e, s1) => (.error e, s1)
  | (none, s1) =>
    match w.mainOutcome with
    | .timeout d =>
      (.error (.crm (timeoutErrorExc (.jstr ("Request timed out: " ++ d)) s1.timeout)), s1)
    | .netError d =>
      (.error (.crm (networkErrorExc (.jstr ("Network error: " ++ d)) d)), s1)
    | .response r =>
      if r.status ≥ 400 then
        let error_data : JValue :=
          match r.body with
          | some j => j
          | none => .jobj [("error", .jstr r.text)]
        (.error (raise_for_status r.status error_data), s1)
      else (.ok r, s1)

/-- `CRMClient.get` (client.py lines 204-207): `request` then
`response.json()` (which raises when the body is undecodable). -/
def clientGet (s : Session) (now : Int) (path : String) (w : World) :
    Except PyExc JValue × Session :=
  match request s now "GET" path w with
  | (.error e, s1) => (.error e, s1)
  | (.ok r, s1) =>
    match r.body with
    | some j => (.ok j, s1)
    | none => (.error .jsonDecodeError, s1)

/-- `CRMClient.post` (client.py lines 209-212). -/
def clientPost (s : Session) (now : Int) (path : String) (w : World) :
    Except PyExc JValue × Session :=
  match request s now "POST" path w with
  | (.error e, s1) => (.error e, s1)
  | (.ok r, s1) =>
    match r.body with
    | some j => (.ok j, s1)
    | none => (.error .jsonDecodeError, s1)

/-- `CRMClient.put` (client.py lines 214-217). -/
def clientPut (s : Session) (now : Int) (path : String) (w : World) :
    Except PyExc JValue × Session :=
  match request s now "PUT" path w with
  | (.error e, s1) => (.error e, s1)
  | (.ok r, s1) =>
    match r.body with
    | some j => (.ok j, s1)
    | none => (.error .jsonDecodeError, s1)

/-- `CRMClient.delete` (client.py lines 219-221): the response body is
discarded. -/
def clientDelete (s : Session) (now : Int) (path : String) (w : World) :
    Except PyExc Unit × Session :=
  match request s now "DELETE" path w with
  | (.error e, s1) => (.error e, s1)
  | (.ok _, s1) => (.ok (), s1)

/-- `AuthService.login` (client.py lines 238-266): POSTs the
credentials, then stores `data["access_token"]` (line 260),
`data["refresh_token"]` (line 261) and the expiry
`now + data.get("expires_in", 3600)` (lines 262-264) in that order.
The final `LoginResponse(**data)` construction is abstracted to
returning the decoded body: the session mutation is complete before
it runs. -/
def login (s : Session) (now : Int) (w : World) : Except PyExc JValue × Session :=
  match clientPost s now "/api/v1/auth/login" w with
  | (.error e, s1) => (.error e, s1)
  | (.ok data, s1) =>
    match data with
    | .jobj fs =>
      match dLookup fs "access_token" with
      | none => (.error (.keyError "access_token"), s1)
      | some tok =>
        let s2 := { s1 with access_token := tok }
        match dLookup fs "refresh_token" with
        | none => (.error (.keyError "refresh_token"), s2)
        | some rt =>
          let s3 := { s2 with refresh_token := rt }
          match asSeconds (dGetJ fs "expires_in" (.jnum 3600)) with
          | none => (.error .typeError, s3)
          | some secs => (.ok data, { s3 with token_expires_at := some (now + secs) })
    | _ => (.error .typeError, s1)

/-- `AuthService.logout` (client.py lines 268-275): POST to the logout
endpoint inside try/finally; the finally block always clears the three
credential fields, whatever the call's outcome. -/
def logout (s : Session) (now : Int) (w : World) : Option PyExc × Session :=
  let res := clientPost s now "/api/v1/auth/logout" w
  let cleared := { res.2 with
    access_token := JValue.jnull, refresh_token := JValue.jnull,
    token_expires_at := none }
  match res.1 with
  | .ok _ => (none, cleared)
  | .error e => (some e, cleared)

/-- `PaginatedResponse` (models.py lines 431-447).  Entity decoding of
the items (pydantic `Customer(**c)` and friends) is out of the
pagination contract's scope and is abstracted: items are kept as their
raw JSON values. -/
structure PaginatedResponse where
  data : List JValue
  total : Int
  page : Int
  per_page : Int
  total_pages : Int

/-- `PaginatedResponse.has_next` (models.py lines 439-442). -/
def PaginatedResponse.has_next (p : PaginatedResponse) : Bool :=
  p.page < p.total_pages

/-- `PaginatedResponse.has_prev` (models.py lines 444-447). -/
def PaginatedResponse.has_prev (p : PaginatedResponse) : Bool :=
  p.page > 1

/-- A JSON array's elements (iterating anything else raises). -/
def asList : JValue → Option (List JValue)
  | .jarr xs => some xs
  | _ => none

/-- pydantic coercion of a JSON value into an `int` model field: ints
pass, numeric strings are coerced in lax mode, anything else fails
validation. -/
def pydanticInt : JValue → Option Int
  | .jnum n => some n
  | .jstr s => s.toInt?
  | _ => none

/-- `CustomerService.list` (client.py lines 388-409): GET
/api/v1/customers with the page / per_page parameters, then construct
the `PaginatedResponse` from the reply's `data` (default empty list),
`total` (default 0) and `total_pages` (default 1), and the REQUESTED
page and per_page.  Unpacking a non-dict item raises TypeError;
pydantic validation of the entity fields themselves is abstracted
(items are kept as raw JSON). -/
def customersList (s : Session) (now : Int) (page per_page : Int) (w : World) :
    Except PyExc PaginatedResponse × Session :=
  match clientGet s now "/api/v1/customers" w with
  | (.error e, s1) => (.error e, s1)
  | (.ok reply, s1) =>
    match reply with
    | .jobj fs =>
      match asList (dGetJ fs "data" (.jarr [])) with
      | none => (.error .typeError, s1)
      | some items =>
        if items.all (fun c => match c with | .jobj _ => true | _ => false) then
          match pydanticInt (dGetJ fs "total" (.jnum 0)),
                pydanticInt (dGetJ fs "total_pages" (.jnum 1)) with
          | some total, some tp => (.ok ⟨items, total, page, per_page, tp⟩, s1)
          | _, _ => (.error .pydanticError, s1)
        else (.error .typeError, s1)
    | _ => (.error .attributeError, s1)

/-- C1: `_should_refresh_token` is true iff auto_refresh is enabled, a
(truthy) refresh token is present, an expiry is recorded, and
`now >= expiry - 300` seconds; equivalently, with auto_refresh and a
refresh token and expiry `now + t`, it is true iff `t <= 300`. -/
theorem shouldRefreshToken_iff_margin (s : Session) (now : Int) :
    (shouldRefreshToken s now = true ↔
      s.auto_refresh = true ∧ jTruthy s.refresh_token = true ∧
        ∃ exp, s.token_expires_at = some exp ∧ exp - 300 ≤ now) ∧
    ∀ t : Int,
      shouldRefreshToken { s with token_expires_at := some (now + t) } now =
        (s.auto_refresh && jTruthy s.refresh_token && decide (t ≤ 300)) := by
  constructor
  · unfold shouldRefreshToken
    cases ha : s.auto_refresh with
    | false => simp [ha]
    | true =>
      cases hr : jTruthy s.refresh_token with
      | false => simp [hr]
      | true =>
        cases he : s.token_expires_at with
        | none => simp [ha, hr, he]
        | some exp => simp [ha, hr, he]
  · intro t
    unfold shouldRefreshToken
    cases ha : s.auto_refresh with
    | false => simp [ha]
    | true =>
      cases hr : jTruthy s.refresh_token with
      | false => simp [hr]
      | true =>
        simp [ha, hr, decide_eq_decide]

/-- C9: the header map always carries Content-Type and Accept set to
application/json; X-API-Key appears iff an API key is configured
(truthy), else Authorization Bearer appears iff an access token is
present (truthy); the two auth headers never appear together;
X-Tenant-ID appears iff a tenant id is set.  `getHeaders` is a pure
function of the session, so building headers has no side effects. -/
theorem getHeaders_spec (s : Session) :
    hdrGet (getHeaders s) "Content-Type" = some "application/json" ∧
    hdrGet (getHeaders s) "Accept" = some "application/json" ∧
    hdrGet (getHeaders s) "X-API-Key" =
      (if strTruthy s.api_key then some (s.api_key.getD "") else none) ∧
    hdrGet (getHeaders s) "Authorization" =
      (if strTruthy s.api_key = false ∧ jTruthy s.access_token = true then
        some ("Bearer " ++ pyStr s.access_token) else none) ∧
    ¬(hdrGet (getHeaders s) "X-API-Key" ≠ none ∧
      hdrGet (getHeaders s) "Authorization" ≠ none) ∧
    hdrGet (getHeaders s) "X-Tenant-ID" =
      (if strTruthy s.tenant_id then some (s.tenant_id.getD "") else none) := by
  cases ha : strTruthy s.api_key with
  | false =>
    cases ht : jTruthy s.access_token with
    | false =>
      cases htn : strTruthy s.tenant_id with
      | false => simp [getHeaders, hdrGet, ha, ht, htn]
      | true => simp [getHeaders, hdrGet, ha, ht, htn]
    | true =>
      cases htn : strTruthy s.tenant_id with
      | false => simp [getHeaders, hdrGet, ha, ht, htn]
      | true => simp [getHeaders, hdrGet, ha, ht, htn]
  | true =>
    cases htn : strTruthy s.tenant_id with
    | false => simp [getHeaders, hdrGet, ha, htn]
    | true => simp [getHeaders, hdrGet, ha, htn]

/-- C7: after `logout`, whether the server call succeeded, raised an
HTTP error, or failed at the transport level, all three credential
fields are cleared. -/
theorem logout_clears_credentials (s : Session) (now : Int) (w : World) :
    (logout s now w).2.access_token = JValue.jnull ∧
    (logout s now w).2.refresh_token = JValue.jnull ∧
    (logout s now w).2.token_expires_at = none := by
  cases hres : clientPost s now "/api/v1/auth/logout" w with
  | mk r s1 => cases r <;> simp [logout, hres]

/-- Helper: a dispatch that does not trigger a refresh leaves the whole
session unchanged, for every transport outcome. -/
theorem request_snd_of_no_refresh (s : Session) (now : Int) (method path : String)
    (w : World) (h : shouldRefreshToken s now = false) :
    (request s now method path w).2 = s := by
  unfold request
  simp only [h, if_false, Bool.false_eq_true]
  cases w.mainOutcome with
  | timeout d => rfl
  | netError d => rfl
  | response r =>
    by_cases hr : r.status ≥ 400 <;> simp [hr]

/-- C10: when `_should_refresh_token` is false at entry, every dispatch
(request and the get/post/put/delete wrappers) leaves the session - in
particular access_token, refresh_token and token_expires_at - exactly
as it was, for every outcome (timeout, network error, any HTTP status,
undecodable body). -/
theorem dispatch_frame (s : Session) (now : Int) (method path : String)
    (w : World) (h : shouldRefreshToken s now = false) :
    (request s now method path w).2 = s ∧
    (clientGet s now path w).2 = s ∧
    (clientPost s now path w).2 = s ∧
    (clientPut s now path w).2 = s ∧
    (clientDelete s now path w).2 = s := by
  refine ⟨request_snd_of_no_refresh s now method path w h, ?_, ?_, ?_, ?_⟩
  · unfold clientGet
    cases hG : request s now "GET" path w with
    | mk res s1 =>
      have h1 := request_snd_of_no_refresh s now "GET" path w h
      rw [hG] at h1
      cases res with
      | error e => simpa using h1
      | ok r => cases hb : r.body <;> simp [hb, h1]
  · unfold clientPost
    cases hG : request s now "POST" path w with
    | mk res s1 =>
      have h1 := request_snd_of_no_refresh s now "POST" path w h
      rw [hG] at h1
      cases res with
      | error e => simpa using h1
      | ok r => cases hb : r.body <;> simp [hb, h1]
  · unfold clientPut
    cases hG : request s now "PUT" path w with
    | mk res s1 =>
      have h1 := request_snd_of_no_refresh s now "PUT" path w h
      rw [hG] at h1
      cases res with
      | error e => simpa using h1
      | ok r => cases hb : r.body <;> simp [hb, h1]
  · unfold clientDelete
    cases hG : request s now "DELETE" path w with
    | mk res s1 =>
      have h1 := request_snd_of_no_refresh s now "DELETE" path w h
      rw [hG] at h1
      cases res with
      | error e => simpa using h1
      | ok r => simpa using h1

/-- Witness for C10 at a concrete session and a failing (timeout)
outcome. -/
theorem dispatch_frame_witness :
    shouldRefreshToken ⟨none, none, false, 30, .jnull, .jnull, none⟩ 0 = false ∧
    (request ⟨none, none, false, 30, .jnull, .jnull, none⟩ 0 "GET" "/x"
        ⟨.timeout "t", .timeout "boom"⟩).2 =
      ⟨none, none, false, 30, .jnull, .jnull, none⟩ :=
  ⟨by rfl,
   (dispatch_frame ⟨none, none, false, 30, .jnull, .jnull, none⟩ 0 "GET" "/x"
     ⟨.timeout "t", .timeout "boom"⟩ (by rfl)).1⟩

/-- C3: when a refresh is due at entry and the dedicated refresh call
returns a non-2xx status, dispatch raises the AuthenticationError
("Failed to refresh token") coming out of `_refresh_access_token`
unchanged, leaves the session as it was, and does so for every outcome
of the main call - the original request is never attempted. -/
theorem request_refresh_failure_propagates (s : Session) (now : Int)
    (method path : String) (r : HResponse) (mo : CallOutcome)
    (h : shouldRefreshToken s now = true)
    (hst : r.status < 200 ∨ 300 ≤ r.status) :
    request s now method path ⟨.response r, mo⟩ =
      (.error (.crm (authenticationError (.jstr "Failed to refresh token") .jnull .jnull)),
        s) := by
  have htok : jTruthy s.refresh_token = true := by
    unfold shouldRefreshToken at h
    cases htr : jTruthy s.refresh_token with
    | true => rfl
    | false => rw [htr] at h; simp at h
  have hne : r.status ≠ 200 := by omega
  unfold request refreshAccessToken
  simp [h, htok, hne]

/-- Witness for C3: refresh due (expiry within the margin), refresh
call answers 500, main call outcome arbitrary (a timeout here). -/
theorem request_refresh_failure_propagates_witness :
    shouldRefreshToken ⟨none, none, true, 30, .jstr "old", .jstr "r", some 100⟩ 0 = true ∧
    ((500 : Int) < 200 ∨ (300 : Int) ≤ 500) ∧
    request ⟨none, none, true, 30, .jstr "old", .jstr "r", some 100⟩ 0 "GET" "/x"
        ⟨.response ⟨500, none, "err"⟩, .timeout "never"⟩ =
      (.error (.crm (authenticationError (.jstr "Failed to refresh token") .jnull .jnull)),
        ⟨none, none, true, 30, .jstr "old", .jstr "r", some 100⟩) :=
  ⟨by rfl, by omega,
   request_refresh_failure_propagates ⟨none, none, true, 30, .jstr "old", .jstr "r", some 100⟩
     0 "GET" "/x" ⟨500, none, "err"⟩ (.timeout "never") (by rfl) (by right; decide)⟩

/-- Counterexample to C2 as stated: a 200 refresh response whose body
has an access_token but a non-numeric expires_in ("soon") makes
`_refresh_access_token` assign the new access_token (line 149) and then
raise TypeError computing the expiry (line 150): the stored
access_token changed from "old" to "new" while the expiry kept its
prior value 500 - a mixed state, so the update is not atomic. -/
theorem refreshAccessToken_mixed_state_cex :
    refreshAccessToken ⟨none, none, true, 30, .jstr "old", .jstr "r", some 500⟩ 1000
        (.response ⟨200, some (.jobj [("access_token", .jstr "new"),
          ("expires_in", .jstr "soon")]), "b"⟩) =
      (some .typeError, ⟨none, none, true, 30, .jstr "new", .jstr "r", some 500⟩) ∧
    JValue.jstr "new" ≠ JValue.jstr "old" := by
  refine ⟨rfl, fun hc => ?_⟩
  injection hc with h2
  exact absurd h2 (by decide)

/-- C2 amended: the refresh is atomic on every failure path except one.
If the refresh call returns a status other than 200, or its body is
undecodable, or there is no truthy refresh token, or the outcome is a
transport error, or the decoded body is not a dict, or it lacks an
access_token key, the session is unchanged; if the refresh returns
without raising, access_token and expiry were updated together.  The
single non-atomic path: a 200 dict body with an access_token whose
expires_in is present and non-numeric updates access_token alone
(raising TypeError) and leaves the expiry unchanged. -/
theorem refreshAccessToken_atomicity_amended (s : Session) (now : Int)
    (out : CallOutcome) :
    (∀ r, out = .response r → r.status ≠ 200 → (refreshAccessToken s now out).2 = s) ∧
    (∀ r, out = .response r → r.body = none → (refreshAccessToken s now out).2 = s) ∧
    (∀ r b, out = .response r → r.body = some b → (∀ g, b ≠ .jobj g) →
      (refreshAccessToken s now out).2 = s) ∧
    (jTruthy s.refresh_token = false → (refreshAccessToken s now out).2 = s) ∧
    (∀ d, out = .timeout d → (refreshAccessToken s now out).2 = s) ∧
    (∀ d, out = .netError d → (refreshAccessToken s now out).2 = s) ∧
    (∀ r fs, out = .response r → r.body = some (.jobj fs) →
      dLookup fs "access_token" = none → (refreshAccessToken s now out).2 = s) ∧
    ((refreshAccessToken s now out).1 = none →
      ∃ tok secs, refreshAccessToken s now out =
        (none, { s with access_token := tok, token_expires_at := some (now + secs) })) ∧
    (∀ r fs tok, out = .response r → r.status = 200 → r.body = some (.jobj fs) →
      jTruthy s.refresh_token = true →
      dLookup fs "access_token" = some tok →
      asSeconds (dGetJ fs "expires_in" (.jnum 3600)) = none →
      refreshAccessToken s now out = (some .typeError, { s with access_token := tok })) := by
  refine ⟨?_, ?_, ?_, ?_, ?_, ?_, ?_, ?_, ?_⟩
  · rintro r rfl hst
    unfold refreshAccessToken
    cases htr : jTruthy s.refresh_token with
    | false => simp
    | true =>
      have : (r.status != 200) = true := by simpa using hst
      simp [this]
  · rintro r rfl hb
    unfold refreshAccessToken
    cases htr : jTruthy s.refresh_token with
    | false => simp
    | true =>
      by_cases hst : r.status = 200
      · simp [hst, hb]
      · have : (r.status != 200) = true := by simpa using hst
        simp [this]
  · rintro r b rfl hb hnd
    unfold refreshAccessToken
    cases htr : jTruthy s.refresh_token with
    | false => simp
    | true =>
      by_cases hst : r.status = 200
      · cases b with
        | jobj g => exact absurd rfl (hnd g)
        | jnull => simp [hst, hb]
        | jbool bb => simp [hst, hb]
        | jnum n => simp [hst, hb]
        | jstr str => simp [hst, hb]
        | jarr xs => simp [hst, hb]
      · have : (r.status != 200) = true := by simpa using hst
        simp [this]
  · intro htr
    unfold refreshAccessToken
    simp [htr]
  · rintro d rfl
    unfold refreshAccessToken
    cases htr : jTruthy s.refresh_token with
    | false => simp
    | true => simp
  · rintro d rfl
    unfold refreshAccessToken
    cases htr : jTruthy s.refresh_token with
    | false => simp
    | true => simp
  · rintro r fs rfl hb hl
    unfold refreshAccessToken
    cases htr : jTruthy s.refresh_token with
    | false => simp
    | true =>
      by_cases hst : r.status = 200
      · simp [hst, hb, hl]
      · have : (r.status != 200) = true := by simpa using hst
        simp [this]
  · intro hnone
    unfold refreshAccessToken at hnone ⊢
    cases htr : jTruthy s.refresh_token with
    | false => simp [htr] at hnone
    | true =>
      simp only [htr, Bool.not_true] at hnone ⊢
      cases out with
      | timeout d => simp at hnone
      | netError d => simp at hnone
      | response r =>
        by_cases hst : r.status = 200
        · simp only [hst] at hnone ⊢
          cases hb : r.body with
          | none => simp [hb] at hnone
          | some data =>
            simp only [hb] at hnone ⊢
            cases data with
            | jobj fs =>
              cases hl : dLookup fs "access_token" with
              | none => simp [hl] at hnone
              | some tok =>
                simp only [hl] at hnone ⊢
                cases hsec : asSeconds (dGetJ fs "expires_in" (.jnum 3600)) with
                | none => simp [hsec] at hnone
                | some secs => exact ⟨tok, secs, by simp [hsec]⟩
            | jnull => simp at hnone
            | jbool b => simp at hnone
            | jnum n => simp at hnone
            | jstr str => simp at hnone
            | jarr xs => simp at hnone
        · have h2 : (r.status != 200) = true := by simpa using hst
          simp [h2] at hnone
  · rintro r fs tok rfl hst hb htr hl hsec
    unfold refreshAccessToken
    simp [htr, hst, hb, hl, hsec]

/-- Witness for the amended C2: a 200 refresh response with numeric
expires_in updates both fields together; the non-2xx clause leaves
the concrete session unchanged. -/
theorem refreshAccessToken_atomicity_amended_witness :
    (refreshAccessToken ⟨none, none, true, 30, .jstr "old", .jstr "r", some 500⟩ 1000
        (.response ⟨200, some (.jobj [("access_token", .jstr "new"),
          ("expires_in", .jnum 60)]), "b"⟩)).1 = none ∧
    (∃ tok secs,
      refreshAccessToken ⟨none, none, true, 30, .jstr "old", .jstr "r", some 500⟩ 1000
          (.response ⟨200, some (.jobj [("access_token", .jstr "new"),
            ("expires_in", .jnum 60)]), "b"⟩) =
        (none, { api_key := none, tenant_id := none, auto_refresh := true, timeout := 30,
                 access_token := tok, refresh_token := JValue.jstr "r",
                 token_expires_at := some (1000 + secs) })) :=
  ⟨rfl,
   (refreshAccessToken_atomicity_amended
      ⟨none, none, true, 30, .jstr "old", .jstr "r", some 500⟩ 1000
      (.response ⟨200, some (.jobj [("access_token", .jstr "new"),
        ("expires_in", .jnum 60)]), "b"⟩)).2.2.2.2.2.2.2.1 rfl⟩

/-- Counterexample to C8 as stated: a successful login whose server
reply carries `expires_in = 60` (any value at most 300) leaves the
expiry inside the 5-minute refresh margin, so a dispatch at the same
instant does trigger a refresh. -/
theorem login_immediate_refresh_cex :
    login ⟨none, none, true, 30, .jnull, .jnull, none⟩ 0
        ⟨.timeout "unused", .response ⟨200, some (.jobj
          [("access_token", .jstr "a"), ("refresh_token", .jstr "r"),
           ("token_type", .jstr "bearer"), ("expires_in", .jnum 60),
           ("user", .jobj [("id", .jstr "u1"), ("email", .jstr "e@x.my")])]), "b"⟩⟩ =
      (.ok (.jobj
          [("access_token", .jstr "a"), ("refresh_token", .jstr "r"),
           ("token_type", .jstr "bearer"), ("expires_in", .jnum 60),
           ("user", .jobj [("id", .jstr "u1"), ("email", .jstr "e@x.my")])]),
        ⟨none, none, true, 30, .jstr "a", .jstr "r", some 60⟩) ∧
    shouldRefreshToken ⟨none, none, true, 30, .jstr "a", .jstr "r", some 60⟩ 0 = true :=
  ⟨rfl, rfl⟩

/-- C8 amended: after a successful login whose reply's expires_in
exceeds 300 seconds (the default 3600 included, since an absent
expires_in reads as 3600), a dispatch performed at the same instant
does not trigger a refresh; with expires_in at most 300 it does. -/
theorem login_fresh_token_no_refresh (s : Session) (now : Int) (w : World)
    (fs : List (String × JValue)) (r : HResponse) (secs : Int)
    (hpre : shouldRefreshToken s now = false)
    (hmo : w.mainOutcome = .response r)
    (hst : r.status < 400)
    (hb : r.body = some (.jobj fs))
    (hat : (dLookup fs "access_token").isSome = true)
    (hrt : (dLookup fs "refresh_token").isSome = true)
    (hsec : asSeconds (dGetJ fs "expires_in" (.jnum 3600)) = some secs)
    (hgt : 300 < secs) :
    (∃ body, (login s now w).1 = .ok body) ∧
    shouldRefreshToken (login s now w).2 now = false := by
  obtain ⟨tok, hat2⟩ := Option.isSome_iff_exists.mp hat
  obtain ⟨rt, hrt2⟩ := Option.isSome_iff_exists.mp hrt
  have hge : ¬ (r.status ≥ 400) := by omega
  have hok : login s now w = (.ok (.jobj fs),
      { s with access_token := tok, refresh_token := rt,
               token_expires_at := some (now + secs) }) := by
    unfold login clientPost request
    simp [hpre, hmo, hb, hat2, hrt2, hsec, hge]
  rw [hok]
  refine ⟨⟨.jobj fs, rfl⟩, ?_⟩
  unfold shouldRefreshToken
  cases hau : s.auto_refresh with
  | false => simp [hau]
  | true =>
    cases htr : jTruthy rt with
    | false => simp [hau, htr]
    | true =>
      simp [hau, htr]
      omega

/-- Witness for the amended C8: login reply with the default TTL 3600;
no refresh is due immediately afterwards. -/
theorem login_fresh_token_no_refresh_witness :
    shouldRefreshToken ⟨none, none, true, 30, .jnull, .jnull, none⟩ 0 = false ∧
    shouldRefreshToken
      (login ⟨none, none, true, 30, .jnull, .jnull, none⟩ 0
        ⟨.timeout "u", .response ⟨200, some (.jobj
          [("access_token", .jstr "a"), ("refresh_token", .jstr "r"),
           ("expires_in", .jnum 3600)]), "b"⟩⟩).2 0 = false :=
  ⟨rfl,
   (login_fresh_token_no_refresh ⟨none, none, true, 30, .jnull, .jnull, none⟩ 0
      ⟨.timeout "u", .response ⟨200, some (.jobj
        [("access_token", .jstr "a"), ("refresh_token", .jstr "r"),
         ("expires_in", .jnum 3600)]), "b"⟩⟩
      [("access_token", .jstr "a"), ("refresh_token", .jstr "r"),
       ("expires_in", .jnum 3600)]
      ⟨200, some (.jobj
        [("access_token", .jstr "a"), ("refresh_token", .jstr "r"),
         ("expires_in", .jnum 3600)]), "b"⟩
      3600 rfl rfl (by decide) rfl rfl rfl rfl (by decide)).2⟩

/-- Counterexample to C5 as stated: a 404 response with an empty,
undecodable body makes dispatch synthesize the error dict around the
raw text "", and `raise_for_status` passes that "" as the message, so
the raised NotFoundError carries the empty message, NOT the
constructor's default "Resource not found". -/
theorem request_404_default_message_cex :
    request ⟨none, none, true, 30, .jnull, .jnull, none⟩ 0 "GET" "/missing"
        ⟨.timeout "u", .response ⟨404, none, ""⟩⟩ =
      (.error (.crm ⟨.NotFoundError, .jstr "", some 404, .jstr "NOT_FOUND",
        .jobj [], .jnull, none, none⟩),
       ⟨none, none, true, 30, .jnull, .jnull, none⟩) ∧
    JValue.jstr "" ≠ JValue.jstr "Resource not found" := by
  refine ⟨rfl, fun hc => ?_⟩
  injection hc with h2
  exact absurd h2 (by decide)

/-- C5 amended: a 404 response whose body is empty or not valid JSON
yields the synthesized error dict around the raw text and raises a
NotFoundError (error_code NOT_FOUND, status 404, empty details) whose
message is the raw response text - the empty string for an empty body -
rather than the constructor default. -/
theorem request_404_undecodable_body (s : Session) (now : Int)
    (method path : String) (w : World) (r : HResponse)
    (hpre : shouldRefreshToken s now = false)
    (hmo : w.mainOutcome = .response r)
    (hst : r.status = 404) (hb : r.body = none) :
    request s now method path w =
      (.error (.crm ⟨.NotFoundError, .jstr r.text, some 404, .jstr "NOT_FOUND",
        .jobj [], .jnull, none, none⟩), s) := by
  unfold request
  simp [hpre, hmo, hst, hb, raise_for_status, notFoundError, mkExc, dGetJ, dLookup,
    pyOr, jTruthy]

/-- Witness for the amended C5: an HTML error page that is not JSON. -/
theorem request_404_undecodable_body_witness :
    shouldRefreshToken ⟨none, none, true, 30, .jnull, .jnull, none⟩ 0 = false ∧
    request ⟨none, none, true, 30, .jnull, .jnull, none⟩ 0 "GET" "/missing"
        ⟨.timeout "u", .response ⟨404, none, "<html>gone</html>"⟩⟩ =
      (.error (.crm ⟨.NotFoundError, .jstr "<html>gone</html>", some 404,
        .jstr "NOT_FOUND", .jobj [], .jnull, none, none⟩),
       ⟨none, none, true, 30, .jnull, .jnull, none⟩) :=
  ⟨rfl,
   request_404_undecodable_body ⟨none, none, true, 30, .jnull, .jnull, none⟩ 0
     "GET" "/missing" ⟨.timeout "u", .response ⟨404, none, "<html>gone</html>"⟩⟩
     ⟨404, none, "<html>gone</html>"⟩ rfl rfl rfl rfl⟩

/-- Helper: with a falsy or dict details argument, the ValidationError
construction cannot raise. -/
theorem validationError_some (message errors details : JValue)
    (hd : jTruthy details = false ∨ ∃ g, details = .jobj g) :
    ∃ e, validationError message errors details = some e ∧ e.cls = .ValidationError := by
  have hobj : ∃ g, pyOr details (.jobj []) = .jobj g := by
    rcases hd with h | ⟨g, hg⟩
    · exact ⟨[], by simp [pyOr, h]⟩
    · subst hg
      cases ht : jTruthy (JValue.jobj g) with
      | true => exact ⟨g, by simp [pyOr, ht]⟩
      | false => exact ⟨[], by simp [pyOr, ht]⟩
  obtain ⟨g, hg⟩ := hobj
  simp only [validationError, hg]
  cases he : jTruthy errors with
  | false => simp [he, mkExc]
  | true => simp [he, pySetItem, mkExc]

/-- Helper: with a falsy or dict details argument, the RateLimitError
construction cannot raise. -/
theorem rateLimitError_some (message retry_after details : JValue)
    (hd : jTruthy details = false ∨ ∃ g, details = .jobj g) :
    ∃ e, rateLimitError message retry_after details = some e ∧ e.cls = .RateLimitError := by
  have hobj : ∃ g, pyOr details (.jobj []) = .jobj g := by
    rcases hd with h | ⟨g, hg⟩
    · exact ⟨[], by simp [pyOr, h]⟩
    · subst hg
      cases ht : jTruthy (JValue.jobj g) with
      | true => exact ⟨g, by simp [pyOr, ht]⟩
      | false => exact ⟨[], by simp [pyOr, ht]⟩
  obtain ⟨g, hg⟩ := hobj
  simp only [rateLimitError, hg]
  cases he : jTruthy retry_after with
  | false => simp [he, mkExc]
  | true => simp [he, pySetItem, mkExc]

/-- The status-to-kind table of spec section 4.4 (the refinement target
the code's `raise_for_status` is compared against). -/
def kindOfStatus (status : Int) : ExcClass :=
  if status == 400 then .ValidationError
  else if status == 401 then .AuthenticationError
  else if status == 403 then .AuthorizationError
  else if status == 404 then .NotFoundError
  else if status == 409 then .ConflictError
  else if status == 429 then .RateLimitError
  else if status ≥ 500 then .ServerError
  else .CRMError

/-- Counterexample to C4 as stated: with status 400 and the decodable
body carrying truthy "errors" and a truthy non-dict "details", the
ValidationError constructor's item assignment
`details["validation_errors"] = errors` raises TypeError, so
`raise_for_status` raises a plain TypeError instead of one typed error. -/
theorem raise_for_status_typeerror_cex :
    raise_for_status 400 (.jobj [("errors", .jobj [("field", .jstr "bad")]),
      ("details", .jstr "oops")]) = PyExc.typeError := by
  rfl

/-- C4 amended: for every integer status >= 400 and every decoded dict
error body whose "details" field (when present and truthy) is itself a
dict, `raise_for_status` deterministically raises exactly one typed
error whose class follows the table (400 Validation, 401
Authentication, 403 Authorization, 404 NotFound, 409 Conflict, 429
RateLimit, >= 500 Server, any other status the generic CRMError); and a
429 response with retry_after 30 yields a RateLimitError whose
retry_after field is 30. -/
theorem raise_for_status_total_amended (status : Int) (fs : List (String × JValue))
    (hge : 400 ≤ status)
    (hdet : jTruthy (dGetJ fs "details" (.jobj [])) = false ∨
      ∃ g, dGetJ fs "details" (.jobj []) = .jobj g) :
    (∃ e, raise_for_status status (.jobj fs) = .crm e ∧ e.cls = kindOfStatus status) ∧
    raise_for_status 429 (.jobj [("retry_after", .jnum 30)]) =
      .crm ⟨.RateLimitError, .jstr "Unknown error", some 429, .jstr "RATE_LIMIT_EXCEEDED",
        .jobj [("retry_after", .jnum 30)], .jnum 30, none, none⟩ := by
  refine ⟨?_, by rfl⟩
  by_cases h400 : status = 400
  · subst h400
    obtain ⟨e, he, hcls⟩ := validationError_some
      (dGetJ fs "error" (dGetJ fs "message" (.jstr "Unknown error")))
      (dGetJ fs "errors" .jnull) (dGetJ fs "details" (.jobj [])) hdet
    refine ⟨e, ?_, by simp [hcls, kindOfStatus]⟩
    simp [raise_for_status, he]
  · by_cases h401 : status = 401
    · subst h401
      exact ⟨_, rfl, by simp [kindOfStatus, authenticationError, mkExc]⟩
    · by_cases h403 : status = 403
      · subst h403
        exact ⟨_, rfl, by simp [kindOfStatus, authorizationError, mkExc]⟩
      · by_cases h404 : status = 404
        · subst h404
          exact ⟨_, rfl, by simp [kindOfStatus, notFoundError, mkExc]⟩
        · by_cases h409 : status = 409
          · subst h409
            exact ⟨_, rfl, by simp [kindOfStatus, conflictError, mkExc]⟩
          · by_cases h429 : status = 429
            · subst h429
              obtain ⟨e, he, hcls⟩ := rateLimitError_some
                (dGetJ fs "error" (dGetJ fs "message" (.jstr "Unknown error")))
                (dGetJ fs "retry_after" .jnull) (dGetJ fs "details" (.jobj [])) hdet
              refine ⟨e, ?_, by simp [hcls, kindOfStatus]⟩
              simp [raise_for_status, he]
            · by_cases h500 : 500 ≤ status
              · refine ⟨serverError
                    (dGetJ fs "error" (dGetJ fs "message" (.jstr "Unknown error")))
                    status (dGetJ fs "code" .jnull) (dGetJ fs "details" (.jobj [])),
                  ?_, ?_⟩
                · simp [raise_for_status, h400, h401, h403, h404, h409, h429, h500]
                · simp [kindOfStatus, h400, h401, h403, h404, h409, h429, h500,
                    serverError, mkExc]
              · refine ⟨mkExc .CRMError
                    (dGetJ fs "error" (dGetJ fs "message" (.jstr "Unknown error")))
                    (some status) (dGetJ fs "code" .jnull) (dGetJ fs "details" (.jobj []))
                    .jnull none none,
                  ?_, ?_⟩
                · simp [raise_for_status, h400, h401, h403, h404, h409, h429, h500]
                · simp [kindOfStatus, h400, h401, h403, h404, h409, h429, h500, mkExc]

/-- Witness for the amended C4: status 503 with an empty body resolves
to a ServerError. -/
theorem raise_for_status_total_amended_witness :
    (400 : Int) ≤ 503 ∧
    (∃ e, raise_for_status 503 (.jobj []) = .crm e ∧ e.cls = kindOfStatus 503) :=
  ⟨by decide,
   (raise_for_status_total_amended 503 [] (by decide) (Or.inl (by rfl))).1⟩

/-- C6: a list call with requested page p and per_page n against a
server reply dict builds the paginated result from the REQUESTED page
and per_page (not server-echoed values) and from the reply's total
(default 0) and total_pages (default 1 when absent), with
has_next = page < total_pages and has_prev = page > 1. -/
theorem customersList_pagination (s : Session) (now page per_page : Int)
    (w : World) (r : HResponse) (fs : List (String × JValue))
    (items : List JValue) (total total_pages : Int)
    (hpre : shouldRefreshToken s now = false)
    (hmo : w.mainOutcome = .response r)
    (hst : r.status < 400)
    (hb : r.body = some (.jobj fs))
    (hdata : dGetJ fs "data" (.jarr []) = .jarr items)
    (hitems : items.all (fun c => match c with | .jobj _ => true | _ => false) = true)
    (htot : dGetJ fs "total" (.jnum 0) = .jnum total)
    (htp : dGetJ fs "total_pages" (.jnum 1) = .jnum total_pages) :
    ∃ pr, customersList s now page per_page w = (.ok pr, s) ∧
      pr.data = items ∧ pr.page = page ∧ pr.per_page = per_page ∧
      pr.total = total ∧ pr.total_pages = total_pages ∧
      pr.has_next = decide (page < total_pages) ∧
      pr.has_prev = decide (1 < page) := by
  have hge : ¬ (r.status ≥ 400) := by omega
  refine ⟨⟨items, total, page, per_page, total_pages⟩, ?_, rfl, rfl, rfl, rfl, rfl, ?_, ?_⟩
  · unfold customersList clientGet request
    simp [hpre, hmo, hge, hb, hdata, hitems, asList, htot, htp, pydanticInt]
  · simp [PaginatedResponse.has_next]
  · simp [PaginatedResponse.has_prev]

/-- Witness for C6, the spec's example: page 2, per_page 10 against a
reply of 8 items with total 18 and total_pages 2 gives page 2, per_page
10, total 18, total_pages 2, has_next false, has_prev true. -/
theorem customersList_pagination_witness :
    ∃ pr, customersList ⟨none, none, false, 30, .jnull, .jnull, none⟩ 0 2 10
        ⟨.timeout "u", .response ⟨200, some (.jobj
          [("data", .jarr (List.replicate 8 (.jobj [("name", .jstr "c")]))),
           ("total", .jnum 18), ("total_pages", .jnum 2)]), "b"⟩⟩ =
      (.ok pr, ⟨none, none, false, 30, .jnull, .jnull, none⟩) ∧
      pr.page = 2 ∧ pr.per_page = 10 ∧ pr.total = 18 ∧ pr.total_pages = 2 ∧
      pr.has_next = false ∧ pr.has_prev = true := by
  obtain ⟨pr, h1, h2, h3, h4, h5, h6, h7, h8⟩ :=
    customersList_pagination ⟨none, none, false, 30, .jnull, .jnull, none⟩ 0 2 10
      ⟨.timeout "u", .response ⟨200, some (.jobj
        [("data", .jarr (List.replicate 8 (.jobj [("name", .jstr "c")]))),
         ("total", .jnum 18), ("total_pages", .jnum 2)]), "b"⟩⟩
      ⟨200, some (.jobj
        [("data", .jarr (List.replicate 8 (.jobj [("name", .jstr "c")]))),
         ("total", .jnum 18), ("total_pages", .jnum 2)]), "b"⟩
      [("data", .jarr (List.replicate 8 (.jobj [("name", .jstr "c")]))),
       ("total", .jnum 18), ("total_pages", .jnum 2)]
      (List.replicate 8 (.jobj [("name", .jstr "c")])) 18 2
      rfl rfl (by decide) rfl rfl (by rfl) rfl rfl
  exact ⟨pr, h1, h3, h4, h5, h6, by rw [h7]; rfl, by rw [h8]; rfl⟩
